import Mathlib

/-!
Shallow embedding of `real_estate_manager.py` (class `RealEstateManagementSystem`
and the interactive price-range filter), together with theorems settling the
frozen claims about its search, update, mortgage and client-matching logic.

Modelling conventions:
* Python floats are modelled as rationals (`ℚ`); Python ints as `ℤ`/`ℕ`.
* Python dicts are insertion-ordered, so `self.properties` / `self.clients`
  are modelled as association lists in insertion order, and `dict.values()`
  as the list of second components.
* Dynamic attribute access (`hasattr`/`getattr`) over a `Property` dataclass
  is modelled by a closed dispatch `Property.getAttr` over the record's
  field names, returning `none` exactly when `hasattr` is false, and a tagged
  `Value` otherwise (mirroring the runtime type of the attribute).
* Console output that signals an outcome (the "not found" message of
  `update_property_status`) is reified as a returned outcome value;
  a Python `ZeroDivisionError` is modelled as `Option.none`.
-/

namespace RealEstate

/-- Python enum `PropertyType`. -/
inductive PropertyType where
  | RESIDENTIAL
  | COMMERCIAL
  | LAND
  | INDUSTRIAL
deriving DecidableEq, Repr

/-- The `.value` display string of a `PropertyType` member. -/
def PropertyType.value : PropertyType → String
  | .RESIDENTIAL => "Residential"
  | .COMMERCIAL => "Commercial"
  | .LAND => "Land"
  | .INDUSTRIAL => "Industrial"

/-- Python enum `PropertyStatus`. -/
inductive PropertyStatus where
  | FOR_SALE
  | FOR_RENT
  | SOLD
  | RENTED
  | PENDING
deriving DecidableEq, Repr

/-- The `.value` display string of a `PropertyStatus` member. -/
def PropertyStatus.value : PropertyStatus → String
  | .FOR_SALE => "For Sale"
  | .FOR_RENT => "For Rent"
  | .SOLD => "Sold"
  | .RENTED => "Rented"
  | .PENDING => "Pending"

/-- Python enum `ClientType`. -/
inductive ClientType where
  | BUYER
  | SELLER
  | TENANT
  | LANDLORD
deriving DecidableEq, Repr

/-- Dataclass `Property`. Numeric fields (`price`, `bathrooms`) are Python
floats modelled as `ℚ`; `bedrooms`, `square_feet`, `year_built` are ints. -/
structure Property where
  property_id : String
  address : String
  city : String
  state : String
  zip_code : String
  property_type : PropertyType
  status : PropertyStatus
  price : ℚ
  bedrooms : ℤ
  bathrooms : ℚ
  square_feet : ℤ
  year_built : ℤ
  description : String
  listing_date : String
  features : List String
  agent_id : Option String
deriving DecidableEq, Repr

/-- A runtime Python value as it appears as a `Property` attribute or as a
search-criteria value: strings, numbers (int and float collapse to `ℚ`,
matching Python's cross-type numeric equality), lists of strings, `None`,
and the two enum types. -/
inductive Value where
  | VStr : String → Value
  | VNum : ℚ → Value
  | VStrList : List String → Value
  | VNone : Value
  | VPType : PropertyType → Value
  | VStatus : PropertyStatus → Value
deriving DecidableEq, Repr

/-- `getattr(prop, key)` guarded by `hasattr(prop, key)`: closed dispatch over
the field names of dataclass `Property`; `none` iff the attribute is absent. -/
def Property.getAttr (p : Property) (key : String) : Option Value :=
  if key = "property_id" then some (Value.VStr p.property_id)
  else if key = "address" then some (Value.VStr p.address)
  else if key = "city" then some (Value.VStr p.city)
  else if key = "state" then some (Value.VStr p.state)
  else if key = "zip_code" then some (Value.VStr p.zip_code)
  else if key = "property_type" then some (Value.VPType p.property_type)
  else if key = "status" then some (Value.VStatus p.status)
  else if key = "price" then some (Value.VNum p.price)
  else if key = "bedrooms" then some (Value.VNum p.bedrooms)
  else if key = "bathrooms" then some (Value.VNum p.bathrooms)
  else if key = "square_feet" then some (Value.VNum p.square_feet)
  else if key = "year_built" then some (Value.VNum p.year_built)
  else if key = "description" then some (Value.VStr p.description)
  else if key = "listing_date" then some (Value.VStr p.listing_date)
  else if key = "features" then some (Value.VStrList p.features)
  else if key = "agent_id" then
    some (match p.agent_id with
          | some a => Value.VStr a
          | none => Value.VNone)
  else none

/-- `str.lower()` on a Python string, viewed as its character list. -/
def pyLower (s : String) : List Char := s.toList.map Char.toLower

/-- Python's `needle.lower() in hay.lower()`: case-insensitive contiguous
substring test. -/
def pyInLower (needle hay : String) : Bool :=
  decide (pyLower needle <:+: pyLower hay)

/-- The enum-unwrapping step of `search_properties`: `isinstance(prop_value,
PropertyType) or isinstance(prop_value, PropertyStatus)` replaces the value
by `.value`. -/
def unwrapEnum : Value → Value
  | Value.VPType t => Value.VStr t.value
  | Value.VStatus s => Value.VStr s.value
  | v => v

/-- One iteration of the criteria loop of `search_properties` for the pair
`(key, value)`: if the attribute is absent the iteration does nothing (the
criterion is skipped); otherwise enums are unwrapped, a string/string pair is
compared by case-insensitive substring, and anything else by equality. The
`Bool` is `false` exactly when the loop sets `match = False` for this pair. -/
def criterionHolds (p : Property) (key : String) (value : Value) : Bool :=
  match p.getAttr key with
  | none => true
  | some pv0 =>
    let pv := unwrapEnum pv0
    match value, pv with
    | Value.VStr v, Value.VStr s => pyInLower v s
    | v, s => v == s

/-- The per-record conjunction of `search_properties`: the record matches iff
no criterion sets `match = False` (early `break` is equivalent to `List.all`). -/
def matchesCriteria (p : Property) (criteria : List (String × Value)) : Bool :=
  criteria.all fun kv => criterionHolds p kv.1 kv.2

/-- `search_properties(**criteria)` over the store's property values in
insertion order. -/
def search_properties (props : List Property) (criteria : List (String × Value)) :
    List Property :=
  props.filter fun p => matchesCriteria p criteria

/-- First sample property from `initialize_sample_data` (PROP0001). -/
def sampleProp1 : Property :=
  { property_id := "PROP0001"
    address := "123 Main St"
    city := "New York"
    state := "NY"
    zip_code := "10001"
    property_type := PropertyType.RESIDENTIAL
    status := PropertyStatus.FOR_SALE
    price := 750000
    bedrooms := 3
    bathrooms := 5/2
    square_feet := 2200
    year_built := 2010
    description := "Beautiful modern townhouse"
    listing_date := "2024-01-15"
    features := ["Garage", "Garden", "Pool"]
    agent_id := none }

/-- Second sample property from `initialize_sample_data` (PROP0002). -/
def sampleProp2 : Property :=
  { property_id := "PROP0002"
    address := "456 Oak Ave"
    city := "Los Angeles"
    state := "CA"
    zip_code := "90001"
    property_type := PropertyType.COMMERCIAL
    status := PropertyStatus.FOR_RENT
    price := 5000
    bedrooms := 0
    bathrooms := 2
    square_feet := 1500
    year_built := 2015
    description := "Prime commercial space"
    listing_date := "2024-01-10"
    features := ["Parking", "Security", "AC"]
    agent_id := none }

/-- The preference mapping of a client, restricted to well-typed values of the
four keys `match_clients_to_properties` reads (a `none` field models an absent
key; an ill-typed value would raise `TypeError`/`AttributeError` in Python and
is outside this model). `bedrooms` is the client's minimum bedroom count,
`max_price` an upper price bound. -/
structure Preferences where
  property_type : Option String
  bedrooms : Option ℤ
  city : Option String
  max_price : Option ℚ
deriving DecidableEq, Repr

/-- Dataclass `Client`. -/
structure Client where
  client_id : String
  first_name : String
  last_name : String
  email : String
  phone : String
  client_type : ClientType
  budget : ℚ
  preferences : Preferences
  interested_properties : List String
  notes : String
deriving DecidableEq, Repr

/-- The in-memory state of `RealEstateManagementSystem`: the `properties` and
`clients` dicts as insertion-ordered association lists. -/
structure RMS where
  properties : List (String × Property)
  clients : List (String × Client)
deriving DecidableEq, Repr

/-- Outcome of `update_property_status`, reifying the two console messages:
`updated` for "status updated", `notFound` for "Property ... not found". -/
inductive UpdateOutcome where
  | updated
  | notFound
deriving DecidableEq, Repr

/-- `update_property_status(property_id, new_status)`: if the identifier is a
key of the properties dict, set that record's `status` in place; otherwise
report not-found and leave the state untouched. -/
def update_property_status (sys : RMS) (property_id : String)
    (new_status : PropertyStatus) : RMS × UpdateOutcome :=
  if (sys.properties.lookup property_id).isSome then
    ({ sys with
        properties := sys.properties.map fun kp =>
          if kp.1 = property_id then (kp.1, { kp.2 with status := new_status })
          else kp },
     UpdateOutcome.updated)
  else
    (sys, UpdateOutcome.notFound)

/-- The dict returned by `calculate_mortgage`. -/
structure MortgageResult where
  loan_amount : ℚ
  monthly_payment : ℚ
  total_payment : ℚ
  total_interest : ℚ
deriving DecidableEq, Repr

/-- `calculate_mortgage(property_price, down_payment, interest_rate,
loan_term)`. Real arithmetic over `ℚ`; a Python `ZeroDivisionError`
(denominator of the amortization fraction equal to zero, or
`num_payments == 0` in the zero-rate branch) is returned as `none`.
No input validation is performed, exactly as in the source. -/
def calculate_mortgage (property_price down_payment interest_rate : ℚ)
    (loan_term : ℤ) : Option MortgageResult :=
  let loan_amount := property_price - down_payment
  let monthly_rate := interest_rate / 100 / 12
  let num_payments := loan_term * 12
  if 0 < monthly_rate then
    let growth := (1 + monthly_rate) ^ num_payments
    if growth - 1 = 0 then none
    else
      let monthly_payment := loan_amount * (monthly_rate * growth) / (growth - 1)
      let total_payment := monthly_payment * (num_payments : ℚ)
      some { loan_amount := loan_amount
             monthly_payment := monthly_payment
             total_payment := total_payment
             total_interest := total_payment - loan_amount }
  else
    if num_payments = 0 then none
    else
      let monthly_payment := loan_amount / (num_payments : ℚ)
      let total_payment := monthly_payment * (num_payments : ℚ)
      some { loan_amount := loan_amount
             monthly_payment := monthly_payment
             total_payment := total_payment
             total_interest := total_payment - loan_amount }

/-- The score accumulation of `match_clients_to_properties` for one
(preferences, property) pair: +30 for an exact `property_type` string match
against the enum's `.value`, +25 when the property has at least the preferred
minimum bedrooms, +20 for a case-insensitive substring match on `city`,
+15 when the price is at most the preferred `max_price`; absent keys add 0. -/
def matchScore (prefs : Preferences) (p : Property) : ℕ :=
  (match prefs.property_type with
   | some t => if p.property_type.value = t then 30 else 0
   | none => 0)
  + (match prefs.bedrooms with
     | some b => if b ≤ p.bedrooms then 25 else 0
     | none => 0)
  + (match prefs.city with
     | some c => if pyInLower c p.city then 20 else 0
     | none => 0)
  + (match prefs.max_price with
     | some m => if p.price ≤ m then 15 else 0
     | none => 0)

/-- One iteration of the inner property loop of `match_clients_to_properties`:
the property is kept (paired with its match score) when it is For Sale or
Pending, passes the 10%-slack affordability gate `price <= budget * 1.1`, and
scores at least the 40-point threshold; otherwise it contributes nothing. -/
def evaluate_property (c : Client) (p : Property) : Option (Property × ℕ) :=
  if (p.status = PropertyStatus.FOR_SALE ∨ p.status = PropertyStatus.PENDING)
      ∧ p.price ≤ c.budget * (11 / 10) then
    let score := matchScore c.preferences p
    if 40 ≤ score then some (p, score) else none
  else none

/-- The `suitable_properties` list built by the inner loop of
`match_clients_to_properties` for one buyer, in property-insertion order. -/
def suitable_properties (props : List Property) (c : Client) :
    List (Property × ℕ) :=
  props.filterMap (evaluate_property c)

/-- `reverse=True` comparison on match scores: `a` may precede `b` iff
`a`'s score is at least `b`'s. Used as the `le` of the stable sort. -/
def scoreGE (a b : Property × ℕ) : Bool := b.2 ≤ a.2

/-- The ranking step: Python's stable `list.sort(key=..., reverse=True)`
followed by `[:5]`, modelled by a stable merge sort under `scoreGE`. -/
def topMatches (props : List Property) (c : Client) : List (Property × ℕ) :=
  ((suitable_properties props c).mergeSort scoreGE).take 5

/-- `match_clients_to_properties()`: for each Buyer client, in client-insertion
order, the top-5 ranked list; non-buyers produce no entry at all. -/
def match_clients_to_properties (sys : RMS) :
    List (String × List (Property × ℕ)) :=
  (sys.clients.map Prod.snd).filterMap fun c =>
    if c.client_type = ClientType.BUYER then
      some (c.client_id, topMatches (sys.properties.map Prod.snd) c)
    else none

/-- The default price range of `search_properties_interactive`:
`(0, float('inf'))`, with `∞` modelled as `⊤` of `WithTop ℚ`. -/
def defaultPriceRange : ℚ × WithTop ℚ := (0, ⊤)

/-- The price-range construction of `search_properties_interactive`: each
given bound replaces the corresponding component of the default range. -/
def buildPriceRange (min_price max_price : Option ℚ) : ℚ × WithTop ℚ :=
  (match min_price with
   | some lo => lo
   | none => defaultPriceRange.1,
   match max_price with
   | some hi => (hi : WithTop ℚ)
   | none => defaultPriceRange.2)

/-- The post-search price filter of `search_properties_interactive`:
`[p for p in results if min_price <= p.price <= max_price]`. -/
def filterByPriceRange (results : List Property) (lo : ℚ) (hi : WithTop ℚ) :
    List Property :=
  results.filter fun p => decide (lo ≤ p.price ∧ (p.price : WithTop ℚ) ≤ hi)

/-- `search_properties_interactive`'s search pipeline: exact/substring criteria
first, then, when a price range was entered, the inclusive range filter. -/
def search_properties_interactive (props : List Property)
    (criteria : List (String × Value)) (price_range : Option (ℚ × WithTop ℚ)) :
    List Property :=
  let results := search_properties props criteria
  match price_range with
  | none => results
  | some (lo, hi) => filterByPriceRange results lo hi

/-- Sample client CLI0001 from `initialize_sample_data`. -/
def sampleClient1 : Client :=
  { client_id := "CLI0001"
    first_name := "John"
    last_name := "Doe"
    email := "john@example.com"
    phone := "555-0101"
    client_type := ClientType.BUYER
    budget := 800000
    preferences :=
      { property_type := some "Residential"
        bedrooms := some 3
        city := some "New York"
        max_price := none }
    interested_properties := ["PROP0001"]
    notes := "Looking for family home" }

/-- The system state after loading `initialize_sample_data`. -/
def sampleSys : RMS :=
  { properties := [("PROP0001", sampleProp1), ("PROP0002", sampleProp2)]
    clients := [("CLI0001", sampleClient1)] }

/-! ## Theorems about the Criteria Matcher and the range filter -/

/-- C7: searching with an empty criteria mapping returns every record of the
collection (each record vacuously matches the empty conjunction). -/
theorem search_empty_criteria_returns_all (props : List Property) :
    search_properties props [] = props := by
  simp [search_properties, matchesCriteria]

/-- C1 counterexample: a criteria mapping whose only entry names an attribute
`sampleProp1` does not possess ("flurb") does NOT exclude the record: the
per-record match returns `true` and `search_properties` returns the record,
refuting the claim that such a record is always excluded. -/
theorem absent_field_included_cex :
    matchesCriteria sampleProp1 [("flurb", Value.VNum 1)] = true ∧
      search_properties [sampleProp1] [("flurb", Value.VNum 1)] = [sampleProp1] := by
  exact ⟨by decide, rfl⟩

/-- C1 amended: a criterion naming a field the record does not possess is
skipped (`hasattr` guards the comparison), so it leaves the record's match
result unchanged rather than failing it. -/
theorem absent_field_criterion_skipped (p : Property) (key : String) (v : Value)
    (criteria : List (String × Value)) (h : p.getAttr key = none) :
    matchesCriteria p ((key, v) :: criteria) = matchesCriteria p criteria := by
  simp [matchesCriteria, criterionHolds, h]

/-- Witness for the amended C1 at the concrete record `sampleProp1` and the
absent field name "flurb". -/
theorem absent_field_criterion_skipped_witness :
    sampleProp1.getAttr "flurb" = none ∧
      matchesCriteria sampleProp1 [("flurb", Value.VNum 1)] =
        matchesCriteria sampleProp1 [] :=
  ⟨by decide,
   absent_field_criterion_skipped sampleProp1 "flurb" (Value.VNum 1) [] (by decide)⟩

/-- C6: when the expected value is a string and the record's attribute (after
enum unwrapping) is a string, the criterion accepts exactly when the
lowercased expected string occurs as a contiguous substring of the lowercased
attribute string; equality is not required. -/
theorem string_criterion_substring (p : Property) (key : String) (v s : String)
    (h : (p.getAttr key).map unwrapEnum = some (Value.VStr s)) :
    criterionHolds p key (Value.VStr v) = true ↔ pyLower v <:+: pyLower s := by
  cases hA : p.getAttr key with
  | none => rw [hA] at h; simp at h
  | some pv0 =>
    rw [hA] at h
    simp only [Option.map_some', Option.some.injEq] at h
    simp [criterionHolds, hA, h, pyInLower]

/-- Witness for C6: searching city "new" against `sampleProp1` (city
"New York"): the hypothesis holds and the substring test succeeds even though
"new" ≠ "New York". -/
theorem string_criterion_substring_witness :
    (sampleProp1.getAttr "city").map unwrapEnum = some (Value.VStr "New York") ∧
      (criterionHolds sampleProp1 "city" (Value.VStr "new") = true ↔
        pyLower "new" <:+: pyLower "New York") :=
  ⟨by decide,
   string_criterion_substring sampleProp1 "city" "new" "New York" (by decide)⟩

/-- C8: the interactive price-range filter keeps exactly the criteria-matching
records whose price lies between the bounds, inclusive at both ends, and an
unspecified bound defaults to 0 (minimum) or positive infinity (maximum). -/
theorem price_range_filter_spec :
    (∀ (props : List Property) (criteria : List (String × Value)) (lo : ℚ)
        (hi : WithTop ℚ) (p : Property),
        p ∈ search_properties_interactive props criteria (some (lo, hi)) ↔
          p ∈ search_properties props criteria ∧
            lo ≤ p.price ∧ (p.price : WithTop ℚ) ≤ hi)
    ∧ (∀ lo : ℚ, buildPriceRange (some lo) none = (lo, ⊤))
    ∧ (∀ hi : ℚ, buildPriceRange none (some hi) = (0, (hi : WithTop ℚ))) := by
  refine ⟨fun props criteria lo hi p => ?_, fun lo => rfl, fun hi => rfl⟩
  simp [search_properties_interactive, filterByPriceRange, List.mem_filter,
    and_assoc]

/-! ## Theorems about the Financial Calculator -/

/-- C3 counterexample: with a down payment (200) strictly greater than the
price (100) and a positive term, `calculate_mortgage` does not fail at all: it
returns a numeric result with a negative loan amount, refuting the claim that
such inputs produce an `InvalidInputError`. -/
theorem mortgage_invalid_input_cex :
    (100 : ℚ) < 200 ∧
      calculate_mortgage 100 200 0 1 =
        some { loan_amount := -100, monthly_payment := -25/3,
               total_payment := -100, total_interest := 0 } := by
  norm_num [calculate_mortgage]

/-- C3 amended: `calculate_mortgage` performs no input validation: it returns
a numeric result exactly when the term is nonzero (in particular for any down
payment exceeding the price and for negative terms), and for a zero term it
fails with a division-by-zero error — never with an `InvalidInputError`. -/
theorem mortgage_returns_iff_term_nonzero (P D r : ℚ) (T : ℤ) :
    (calculate_mortgage P D r T).isSome = true ↔ T ≠ 0 := by
  simp only [calculate_mortgage]
  by_cases hr : 0 < r / 100 / 12
  · rw [if_pos hr]
    by_cases hg : (1 + r / 100 / 12) ^ (T * 12) - 1 = 0
    · rw [if_pos hg]
      simp only [Option.isSome_none, Bool.false_eq_true, false_iff, ne_eq, not_not]
      have hb0 : (0 : ℚ) < 1 + r / 100 / 12 := by linarith
      have hb1 : (1 + r / 100 / 12) ≠ 1 := by
        have : (1 : ℚ) < 1 + r / 100 / 12 := by linarith
        exact ne_of_gt this
      have hpow : (1 + r / 100 / 12) ^ (T * 12) = (1 + r / 100 / 12) ^ (0 : ℤ) := by
        rw [zpow_zero]
        linarith [hg]
      have h0 := zpow_right_injective₀ hb0 hb1 hpow
      omega
    · rw [if_neg hg]
      simp only [Option.isSome_some, true_iff, ne_eq]
      intro h
      subst h
      simp at hg
  · rw [if_neg hr]
    by_cases hT : T * 12 = 0
    · rw [if_pos hT]
      simp only [Option.isSome_none, Bool.false_eq_true, false_iff, ne_eq, not_not]
      omega
    · rw [if_neg hT]
      simp only [Option.isSome_some, true_iff, ne_eq]
      omega

/-- C9: with annual rate 0 and a positive term, `calculate_mortgage` returns
`monthly_payment = (price - down_payment) / (T * 12)` exactly and
`total_interest = 0` exactly; moreover every successful result (any branch)
satisfies `total_interest = total_payment - loan_amount`. -/
theorem mortgage_zero_rate_exact (P D : ℚ) (T : ℤ) (hT : 0 < T) :
    (∃ res, calculate_mortgage P D 0 T = some res ∧
        res.monthly_payment = (P - D) / ((T : ℚ) * 12) ∧
        res.total_interest = 0)
    ∧ ∀ (P2 D2 r2 : ℚ) (T2 : ℤ) (res2 : MortgageResult),
        calculate_mortgage P2 D2 r2 T2 = some res2 →
        res2.total_interest = res2.total_payment - res2.loan_amount := by
  constructor
  · have hr : ¬ (0 : ℚ) < 0 / 100 / 12 := by norm_num
    have hnp : (T * 12 : ℤ) ≠ 0 := by omega
    have hnpq : ((T * 12 : ℤ) : ℚ) ≠ 0 := Int.cast_ne_zero.mpr hnp
    refine ⟨{ loan_amount := P - D,
              monthly_payment := (P - D) / ((T * 12 : ℤ) : ℚ),
              total_payment := (P - D) / ((T * 12 : ℤ) : ℚ) * ((T * 12 : ℤ) : ℚ),
              total_interest :=
                (P - D) / ((T * 12 : ℤ) : ℚ) * ((T * 12 : ℤ) : ℚ) - (P - D) },
            ?_, ?_, ?_⟩
    · simp only [calculate_mortgage]
      rw [if_neg hr, if_neg hnp]
    · show (P - D) / ((T * 12 : ℤ) : ℚ) = (P - D) / ((T : ℚ) * 12)
      push_cast
      ring
    · show (P - D) / ((T * 12 : ℤ) : ℚ) * ((T * 12 : ℤ) : ℚ) - (P - D) = 0
      rw [div_mul_cancel₀ _ hnpq]
      ring
  · intro P2 D2 r2 T2 res2 h
    simp only [calculate_mortgage] at h
    split at h
    · split at h
      · exact absurd h (by simp)
      · injection h with h'
        subst h'
        rfl
    · split at h
      · exact absurd h (by simp)
      · injection h with h'
        subst h'
        rfl

/-- Witness for C9 at the spec's sample input: price 750000, down payment
150000, rate 0, term 30 years. -/
theorem mortgage_zero_rate_exact_witness :
    (0 : ℤ) < 30 ∧
      ((∃ res, calculate_mortgage 750000 150000 0 30 = some res ∧
          res.monthly_payment = (750000 - 150000) / ((30 : ℚ) * 12) ∧
          res.total_interest = 0)
        ∧ ∀ (P2 D2 r2 : ℚ) (T2 : ℤ) (res2 : MortgageResult),
            calculate_mortgage P2 D2 r2 T2 = some res2 →
            res2.total_interest = res2.total_payment - res2.loan_amount) :=
  ⟨by decide, mortgage_zero_rate_exact 750000 150000 30 (by decide)⟩

/-! ## Theorems about the Scoring Matcher -/

/-- `scoreGE` is transitive: needed for the sortedness of the merge sort. -/
lemma scoreGE_trans (a b c : Property × ℕ) (h1 : scoreGE a b = true)
    (h2 : scoreGE b c = true) : scoreGE a c = true := by
  simp only [scoreGE, decide_eq_true_eq] at *
  omega

/-- `scoreGE` is total: needed for the sortedness of the merge sort. -/
lemma scoreGE_total (a b : Property × ℕ) : (scoreGE a b || scoreGE b a) = true := by
  simp only [scoreGE, Bool.or_eq_true, decide_eq_true_eq]
  omega

/-- Unfolding membership in the suitable list: the property comes from the
collection, is For Sale or Pending, passes the affordability gate, and is
paired with its match score, which clears the threshold. -/
lemma mem_suitable_properties {props : List Property} {c : Client}
    {pr : Property × ℕ} (h : pr ∈ suitable_properties props c) :
    pr.1 ∈ props ∧
      (pr.1.status = PropertyStatus.FOR_SALE ∨ pr.1.status = PropertyStatus.PENDING) ∧
      pr.1.price ≤ c.budget * (11 / 10) ∧
      pr.2 = matchScore c.preferences pr.1 ∧ 40 ≤ pr.2 := by
  simp only [suitable_properties, evaluate_property, List.mem_filterMap] at h
  obtain ⟨a, ha, hf⟩ := h
  split at hf
  · split at hf
    · obtain ⟨rfl⟩ := Option.some.inj hf
      refine ⟨ha, ?_⟩
      simp_all
    · exact absurd hf (by simp)
  · exact absurd hf (by simp)

/-- Members of the ranked top-5 list are members of the suitable list. -/
lemma mem_topMatches {props : List Property} {c : Client} {pr : Property × ℕ}
    (h : pr ∈ topMatches props c) : pr ∈ suitable_properties props c := by
  simp only [topMatches] at h
  exact List.mem_mergeSort.mp (List.mem_of_mem_take h)

/-- Every entry of the matcher's output belongs to a Buyer client and is that
client's ranked top-5 list. -/
lemma mem_match_clients {sys : RMS} {cid : String} {l : List (Property × ℕ)}
    (h : (cid, l) ∈ match_clients_to_properties sys) :
    ∃ c, c ∈ sys.clients.map Prod.snd ∧ c.client_type = ClientType.BUYER ∧
      cid = c.client_id ∧ l = topMatches (sys.properties.map Prod.snd) c := by
  simp only [match_clients_to_properties, List.mem_filterMap] at h
  obtain ⟨c, hc, hf⟩ := h
  split at hf
  · have h2 := Option.some.inj hf
    have hcid : c.client_id = cid := congrArg Prod.fst h2
    have hl : topMatches (sys.properties.map Prod.snd) c = l := congrArg Prod.snd h2
    exact ⟨c, hc, by assumption, hcid.symm, hl.symm⟩
  · exact absurd hf (by simp)

/-- Stability of the ranking sort: restricted to any single score value, the
sorted list is exactly the input list (in encounter order). -/
lemma filter_score_mergeSort (l : List (Property × ℕ)) (s : ℕ) :
    ((l.mergeSort scoreGE).filter fun x => x.2 == s) = l.filter fun x => x.2 == s := by
  have hA : (l.filter fun x => x.2 == s).Sublist (l.mergeSort scoreGE) := by
    apply List.sublist_mergeSort scoreGE_trans scoreGE_total
    · apply List.pairwise_of_forall_mem_list
      intro a ha b hb
      simp only [List.mem_filter, beq_iff_eq] at ha hb
      simp [scoreGE, ha.2, hb.2]
    · exact List.filter_sublist l
  have hperm : ((l.mergeSort scoreGE).filter fun x => x.2 == s).Perm
      (l.filter fun x => x.2 == s) := (List.mergeSort_perm l scoreGE).filter _
  have hsub2 : (l.filter fun x => x.2 == s).Sublist
      ((l.mergeSort scoreGE).filter fun x => x.2 == s) := by
    have h1 := hA.filter (fun x => x.2 == s)
    rwa [List.filter_filter, (by simp : (fun a => (a.2 == s) && (a.2 == s)) = fun a : Property × ℕ => a.2 == s)] at h1
  exact (hsub2.eq_of_length hperm.length_eq.symm).symm

/-- C4: every (property, score) pair in a buyer's result list comes from that
buyer's run of the inner loop, so a property priced strictly above the
client's budget times 1.1 never appears in the list, whatever its score. -/
theorem affordability_gate (sys : RMS) (cid : String) (l : List (Property × ℕ))
    (h : (cid, l) ∈ match_clients_to_properties sys) :
    ∃ c, c ∈ sys.clients.map Prod.snd ∧ c.client_type = ClientType.BUYER ∧
      cid = c.client_id ∧
      ∀ p : Property, c.budget * (11 / 10) < p.price → ∀ s : ℕ, (p, s) ∉ l := by
  obtain ⟨c, hc, hb, hcid, hl⟩ := mem_match_clients h
  refine ⟨c, hc, hb, hcid, fun p hp s hmem => ?_⟩
  subst hl
  have h2 := (mem_suitable_properties (mem_topMatches hmem)).2.2.1
  exact absurd h2 (not_le.mpr hp)

/-- C5: every result list of `match_clients_to_properties` has length at most
5, non-increasing scores from first to last, and — per score value — its
pairs form a subsequence of the encounter-ordered suitable list (stable
descending sort, top 5 retained). -/
theorem top_five_ranking (sys : RMS) (cid : String) (l : List (Property × ℕ))
    (h : (cid, l) ∈ match_clients_to_properties sys) :
    l.length ≤ 5 ∧ List.Pairwise (fun a b : Property × ℕ => b.2 ≤ a.2) l ∧
      ∃ c, c ∈ sys.clients.map Prod.snd ∧ cid = c.client_id ∧
        ∀ s : ℕ, (l.filter fun x => x.2 == s).Sublist
          ((suitable_properties (sys.properties.map Prod.snd) c).filter
            fun x => x.2 == s) := by
  obtain ⟨c, hc, hb, hcid, hl⟩ := mem_match_clients h
  subst hl
  refine ⟨?_, ?_, c, hc, hcid, fun s => ?_⟩
  · simp only [topMatches, List.length_take]
    exact min_le_left _ _
  · have hs := List.sorted_mergeSort scoreGE_trans scoreGE_total
      (suitable_properties (sys.properties.map Prod.snd) c)
    have h2 := List.Pairwise.sublist (List.take_sublist 5 _) hs
    exact h2.imp fun hab => by
      simpa [scoreGE, decide_eq_true_eq] using hab
  · have h1 := (List.take_sublist 5
      ((suitable_properties (sys.properties.map Prod.snd) c).mergeSort scoreGE)).filter
      (fun x : Property × ℕ => x.2 == s)
    rwa [filter_score_mergeSort] at h1

/-- Every match score is a subset sum of the four weights 30, 25, 20, 15. -/
lemma matchScore_cases (prefs : Preferences) (p : Property) :
    ∃ b1 b2 b3 b4 : Bool,
      matchScore prefs p =
        cond b1 30 0 + cond b2 25 0 + cond b3 20 0 + cond b4 15 0 := by
  have h1 : ∃ b : Bool,
      (match prefs.property_type with
       | some t => if p.property_type.value = t then 30 else 0
       | none => 0) = cond b 30 0 := by
    cases prefs.property_type with
    | none => exact ⟨false, rfl⟩
    | some t =>
      by_cases hc : p.property_type.value = t
      · exact ⟨true, by simp [hc]⟩
      · exact ⟨false, by simp [hc]⟩
  have h2 : ∃ b : Bool,
      (match prefs.bedrooms with
       | some b => if b ≤ p.bedrooms then 25 else 0
       | none => 0) = cond b 25 0 := by
    cases prefs.bedrooms with
    | none => exact ⟨false, rfl⟩
    | some n =>
      by_cases hc : n ≤ p.bedrooms
      · exact ⟨true, by simp [hc]⟩
      · exact ⟨false, by simp [hc]⟩
  have h3 : ∃ b : Bool,
      (match prefs.city with
       | some cty => if pyInLower cty p.city then 20 else 0
       | none => 0) = cond b 20 0 := by
    cases prefs.city with
    | none => exact ⟨false, rfl⟩
    | some cty =>
      by_cases hc : pyInLower cty p.city
      · exact ⟨true, by simp [hc]⟩
      · exact ⟨false, by simp [hc]⟩
  have h4 : ∃ b : Bool,
      (match prefs.max_price with
       | some m => if p.price ≤ m then 15 else 0
       | none => 0) = cond b 15 0 := by
    cases prefs.max_price with
    | none => exact ⟨false, rfl⟩
    | some m =>
      by_cases hc : p.price ≤ m
      · exact ⟨true, by simp [hc]⟩
      · exact ⟨false, by simp [hc]⟩
  obtain ⟨b1, e1⟩ := h1
  obtain ⟨b2, e2⟩ := h2
  obtain ⟨b3, e3⟩ := h3
  obtain ⟨b4, e4⟩ := h4
  exact ⟨b1, b2, b3, b4, by rw [matchScore, e1, e2, e3, e4]⟩

/-- C10: every score returned by `match_clients_to_properties` is a subset
sum of the weights 30, 25, 20, 15 that clears the 40-point threshold; in
particular it lies between 40 and 90, never reaching the nominal 100. -/
theorem score_weights_bounds (sys : RMS) (cid : String) (l : List (Property × ℕ))
    (pr : Property × ℕ) (h : (cid, l) ∈ match_clients_to_properties sys)
    (hpr : pr ∈ l) :
    (∃ b1 b2 b3 b4 : Bool,
        pr.2 = cond b1 30 0 + cond b2 25 0 + cond b3 20 0 + cond b4 15 0)
    ∧ 40 ≤ pr.2 ∧ pr.2 ≤ 90 := by
  obtain ⟨c, hc, hb, hcid, hl⟩ := mem_match_clients h
  subst hl
  obtain ⟨-, -, -, hscore, hthr⟩ := mem_suitable_properties (mem_topMatches hpr)
  obtain ⟨b1, b2, b3, b4, he⟩ := matchScore_cases c.preferences pr.1
  refine ⟨⟨b1, b2, b3, b4, hscore.trans he⟩, hthr, ?_⟩
  rw [hscore, he]
  cases b1 <;> cases b2 <;> cases b3 <;> cases b4 <;> simp

/-! ## Theorems about the Entity Store update -/

/-- C2: when the identifier is absent from the properties dict,
`update_property_status` reports the not-found error outcome and leaves the
whole state unchanged; when it is present, it reports success, leaves the
clients untouched, and rewrites the property list entrywise so that only the
targeted identifier's record changes, and that record only in its `status`
field. -/
theorem update_property_status_spec (sys : RMS) (pid : String) (st : PropertyStatus) :
    ((sys.properties.lookup pid).isSome = false →
        update_property_status sys pid st = (sys, UpdateOutcome.notFound))
    ∧ ((sys.properties.lookup pid).isSome = true →
        (update_property_status sys pid st).2 = UpdateOutcome.updated ∧
        (update_property_status sys pid st).1.clients = sys.clients ∧
        List.Forall₂
          (fun kp kp' : String × Property =>
            (kp.1 ≠ pid → kp' = kp) ∧
            (kp.1 = pid → kp' = (kp.1, { kp.2 with status := st })))
          sys.properties (update_property_status sys pid st).1.properties) := by
  constructor
  · intro h
    simp [update_property_status, h]
  · intro h
    simp only [update_property_status, h, if_true]
    refine ⟨trivial, trivial, ?_⟩
    rw [List.forall₂_map_right_iff, List.forall₂_same]
    intro kp _
    constructor
    · intro hne
      rw [if_neg hne]
    · intro heq
      rw [if_pos heq]

/-- Witness for C2 on the sample store: the absent identifier "PROP9999" and
the present identifier "PROP0001". -/
theorem update_property_status_witness :
    update_property_status sampleSys "PROP9999" PropertyStatus.SOLD =
        (sampleSys, UpdateOutcome.notFound) ∧
      ((update_property_status sampleSys "PROP0001" PropertyStatus.SOLD).2 =
          UpdateOutcome.updated ∧
        (update_property_status sampleSys "PROP0001" PropertyStatus.SOLD).1.clients =
          sampleSys.clients ∧
        List.Forall₂
          (fun kp kp' : String × Property =>
            (kp.1 ≠ "PROP0001" → kp' = kp) ∧
            (kp.1 = "PROP0001" →
              kp' = (kp.1, { kp.2 with status := PropertyStatus.SOLD })))
          sampleSys.properties
          (update_property_status sampleSys "PROP0001" PropertyStatus.SOLD).1.properties) :=
  ⟨(update_property_status_spec sampleSys "PROP9999" PropertyStatus.SOLD).1 (by decide),
   (update_property_status_spec sampleSys "PROP0001" PropertyStatus.SOLD).2 (by decide)⟩

/-! ## Concrete evaluation of the Scoring Matcher on the sample data -/

/-- On the sample data, PROP0001 is For Sale, affordable for CLI0001
(750000 ≤ 880000) and scores 30 + 25 + 20 = 75 ≥ 40, so it is kept. -/
lemma sample_evaluate1 :
    evaluate_property sampleClient1 sampleProp1 = some (sampleProp1, 75) := by
  have hmsc : matchScore sampleClient1.preferences sampleProp1 = 75 := by decide
  have hprice : sampleProp1.price ≤ sampleClient1.budget * (11 / 10) := by
    show (750000 : ℚ) ≤ 800000 * (11 / 10)
    norm_num
  rw [evaluate_property, if_pos ⟨Or.inl rfl, hprice⟩]
  show (if 40 ≤ matchScore sampleClient1.preferences sampleProp1 then
    some (sampleProp1, matchScore sampleClient1.preferences sampleProp1) else none) = _
  rw [hmsc]
  rfl

/-- On the sample data, PROP0002 is For Rent, hence filtered out before
scoring. -/
lemma sample_evaluate2 : evaluate_property sampleClient1 sampleProp2 = none := by
  rw [evaluate_property, if_neg]
  exact fun hc => absurd hc.1 (by decide)

/-- Full evaluation of the Scoring Matcher on the sample store: the single
buyer CLI0001 is matched with PROP0001 at score 75. -/
lemma sample_matches_eval :
    match_clients_to_properties sampleSys = [("CLI0001", [(sampleProp1, 75)])] := by
  have hsuit : suitable_properties [sampleProp1, sampleProp2] sampleClient1 =
      [(sampleProp1, 75)] := by
    simp [suitable_properties, sample_evaluate1, sample_evaluate2]
  have hms : [(sampleProp1, (75 : ℕ))].mergeSort scoreGE = [(sampleProp1, 75)] :=
    List.mergeSort_of_sorted (List.pairwise_singleton _ _)
  simp only [match_clients_to_properties, sampleSys, List.map_cons, List.map_nil,
    List.filterMap_cons, List.filterMap_nil, topMatches]
  show [(sampleClient1.client_id,
      List.take 5
        ((suitable_properties [sampleProp1, sampleProp2] sampleClient1).mergeSort
          scoreGE))] =
    [("CLI0001", [(sampleProp1, 75)])]
  rw [hsuit, hms]
  rfl

/-- Witness for C4 on the sample store: buyer CLI0001's result list is
produced and every property it could contain respects the affordability
gate. -/
theorem affordability_gate_witness :
    ("CLI0001", [(sampleProp1, 75)]) ∈ match_clients_to_properties sampleSys ∧
      ∃ c, c ∈ sampleSys.clients.map Prod.snd ∧ c.client_type = ClientType.BUYER ∧
        "CLI0001" = c.client_id ∧
        ∀ p : Property, c.budget * (11 / 10) < p.price →
          ∀ s : ℕ, (p, s) ∉ [(sampleProp1, 75)] :=
  ⟨by rw [sample_matches_eval]; exact List.mem_singleton.mpr rfl,
   affordability_gate sampleSys "CLI0001" [(sampleProp1, 75)]
     (by rw [sample_matches_eval]; exact List.mem_singleton.mpr rfl)⟩

/-- Witness for C5 on the sample store: CLI0001's returned list has length at
most 5, non-increasing scores and is, per score, a subsequence of the
encounter-ordered suitable list. -/
theorem top_five_ranking_witness :
    ("CLI0001", [(sampleProp1, 75)]) ∈ match_clients_to_properties sampleSys ∧
      ([(sampleProp1, 75)].length ≤ 5 ∧
        List.Pairwise (fun a b : Property × ℕ => b.2 ≤ a.2) [(sampleProp1, 75)] ∧
        ∃ c, c ∈ sampleSys.clients.map Prod.snd ∧ "CLI0001" = c.client_id ∧
          ∀ s : ℕ, ([(sampleProp1, 75)].filter fun x => x.2 == s).Sublist
            ((suitable_properties (sampleSys.properties.map Prod.snd) c).filter
              fun x => x.2 == s)) :=
  ⟨by rw [sample_matches_eval]; exact List.mem_singleton.mpr rfl,
   top_five_ranking sampleSys "CLI0001" [(sampleProp1, 75)]
     (by rw [sample_matches_eval]; exact List.mem_singleton.mpr rfl)⟩

/-- Witness for C10 on the sample store: the returned score 75 = 30 + 25 + 20
is a subset sum of the weights within the 40–90 bounds. -/
theorem score_weights_bounds_witness :
    (("CLI0001", [(sampleProp1, 75)]) ∈ match_clients_to_properties sampleSys ∧
        (sampleProp1, (75 : ℕ)) ∈ [(sampleProp1, (75 : ℕ))]) ∧
      ((∃ b1 b2 b3 b4 : Bool,
          (sampleProp1, (75 : ℕ)).2 =
            cond b1 30 0 + cond b2 25 0 + cond b3 20 0 + cond b4 15 0)
        ∧ 40 ≤ (sampleProp1, (75 : ℕ)).2 ∧ (sampleProp1, (75 : ℕ)).2 ≤ 90) :=
  ⟨⟨by rw [sample_matches_eval]; exact List.mem_singleton.mpr rfl,
    List.mem_singleton.mpr rfl⟩,
   score_weights_bounds sampleSys "CLI0001" [(sampleProp1, 75)] (sampleProp1, 75)
     (by rw [sample_matches_eval]; exact List.mem_singleton.mpr rfl)
     (List.mem_singleton.mpr rfl)⟩

end RealEstate
